import Mathlib

/-!
Shallow embedding of the slot-machine core (src/game/mod.rs, src/game/payout.rs,
src/game/symbol.rs).  Rust u32 values are modelled as Nat; operations that can
overflow a u32 are reduced modulo 2^32 (wrapping, i.e. release-build semantics).
Code that can panic is modelled with the RustOutcome type; code returning
Result is modelled with Except.  Random symbol draws are passed as explicit
parameters (the Uniform sampler is external entropy).
-/

set_option maxHeartbeats 1000000

deriving instance DecidableEq for Except

namespace SlotMachine

/-- Number of virtual reels in a slot machine (constant NUM_REELS in mod.rs). -/
def NUM_REELS : Nat := 3

/-- Modulus of Rust u32 arithmetic: overflowing u32 operations wrap modulo
this value. -/
def U32 : Nat := 4294967296

/-- Outcome of a Rust computation that may panic: either a normal value or a
panic carrying its message. -/
inductive RustOutcome (α : Type) where
  | ok : α → RustOutcome α
  | panic : String → RustOutcome α
  deriving DecidableEq

/-- True exactly when the computation did not panic. -/
def RustOutcome.isOk {α : Type} : RustOutcome α → Bool
  | .ok _ => true
  | .panic _ => false

/-- The Symbol enum from symbol.rs: seven weighted symbol categories. -/
inductive Symbol where
  | Blank
  | Cherry
  | Bar
  | DoubleBar
  | TripleBar
  | Seven
  | Jackpot
  deriving DecidableEq, Repr, Fintype

/-- The OutOfRange error from symbol.rs; carries the offending number. -/
structure OutOfRange where
  number : Nat
  deriving DecidableEq

/-- Symbol::from_number: maps a number to a symbol through the contiguous
match arms 0..=72, 73..=77, 78..=93, 94..=106, 107..=117, 118..=125,
126..=127, with everything else an OutOfRange error.  The argument is a
Rust u32, hence never negative, so each arm low bound is implied. -/
def Symbol.from_number (number : Nat) : Except OutOfRange Symbol :=
  if number ≤ 72 then .ok .Blank
  else if number ≤ 77 then .ok .Cherry
  else if number ≤ 93 then .ok .Bar
  else if number ≤ 106 then .ok .DoubleBar
  else if number ≤ 117 then .ok .TripleBar
  else if number ≤ 125 then .ok .Seven
  else if number ≤ 127 then .ok .Jackpot
  else .error ⟨number⟩

/-- Display/Debug rendering of a Symbol: the derived Debug name of the
variant, as produced by write!(f, formatted self) in symbol.rs. -/
def Symbol.to_string : Symbol → String
  | .Blank => "Blank"
  | .Cherry => "Cherry"
  | .Bar => "Bar"
  | .DoubleBar => "DoubleBar"
  | .TripleBar => "TripleBar"
  | .Seven => "Seven"
  | .Jackpot => "Jackpot"

/-- Helper for substring search: does the haystack start with the needle? -/
def charsBeginWith : List Char → List Char → Bool
  | [], _ => true
  | _ :: _, [] => false
  | n :: ns, h :: hs => n == h && charsBeginWith ns hs

/-- Helper for substring search: does the needle occur anywhere in the
haystack? -/
def charsContain (needle : List Char) : List Char → Bool
  | [] => charsBeginWith needle []
  | h :: hs => charsBeginWith needle (h :: hs) || charsContain needle hs

/-- Model of Rust str::contains with a string pattern: substring test. -/
def strContains (hay needle : String) : Bool :=
  charsContain needle.data hay.data

/-- The is_all helper of payout.rs: true when every element of the vector
equals the expected symbol. -/
def is_all (vec : List Symbol) (expected : Symbol) : Bool :=
  vec.all (fun x => x == expected)

/-- Body of the payout function of payout.rs after its length assertion:
the first-match-wins cascade of payout rules. -/
def payoutCore (symbols : List Symbol) : Nat :=
  if is_all symbols .Jackpot then 1666
  else if is_all symbols .Seven then 300
  else if is_all symbols .TripleBar then 100
  else if is_all symbols .DoubleBar then 50
  else if is_all symbols .Bar then 25
  else if is_all symbols .Cherry
      || ((symbols.map (fun x => x.to_string)).filter
            (fun x => strContains x "Bar")).length == 3 then 12
  else if (symbols.filter (fun x => x == .Cherry)).length == 2 then 6
  else if (symbols.filter (fun x => x == .Cherry)).length == 1 then 3
  else 0

/-- The payout function of payout.rs: asserts that the vector holds exactly
NUM_REELS symbols (panicking otherwise), then resolves the payout table. -/
def payout (symbols : List Symbol) : RustOutcome Nat :=
  if symbols.length = NUM_REELS then .ok (payoutCore symbols)
  else .panic ("Вектор должен содержать 3 символа! Содержит: "
      ++ toString symbols.length)

/-- The InvalidBet error of mod.rs displays this message; assert failures in
Bet carry it as the panic payload. -/
def invalidBetMsg : String := "Invalid bet!"

/-- The LowBalance error of mod.rs (no payload). -/
inductive LowBalance where
  | mk
  deriving DecidableEq

/-- The Bet struct of mod.rs: size with inclusive min and max bounds. -/
structure Bet where
  size : Nat
  min : Nat
  max : Nat
  deriving DecidableEq, Repr

/-- Bet::is_valid: bet between min and max and min at most max. -/
def Bet.is_valid (bet min max : Nat) : Bool :=
  decide (bet ≥ min) && decide (bet ≤ max) && decide (min ≤ max)

/-- Bet::new: asserts validity (panicking with the InvalidBet message when
the configuration is invalid) and builds the struct. -/
def Bet.new (size min max : Nat) : RustOutcome Bet :=
  if Bet.is_valid size min max then .ok ⟨size, min, max⟩
  else .panic invalidBetMsg

/-- Bet::set_size: asserts validity of the new size against the stored
bounds (panicking with the InvalidBet message otherwise), then stores it. -/
def Bet.set_size (b : Bet) (size : Nat) : RustOutcome Bet :=
  if Bet.is_valid size b.min b.max then .ok { b with size := size }
  else .panic invalidBetMsg

/-- The Game struct of mod.rs: credit balance, current bet, last win and
the latest reel stops. -/
structure Game where
  credits : Nat
  bet : Bet
  win : Nat
  stops : List Symbol
  deriving DecidableEq, Repr

/-- Game::new: initial win is 0 and the stops are three random symbols,
passed here explicitly as r1 r2 r3. -/
def Game.new (credits : Nat) (bet : Bet) (r1 r2 r3 : Symbol) : Game :=
  { credits := credits, bet := bet, win := 0, stops := [r1, r2, r3] }

/-- Game::set_bet: replaces the whole bet. -/
def Game.set_bet (g : Game) (bet : Bet) : Game :=
  { g with bet := bet }

/-- Game::bet_size accessor. -/
def Game.bet_size (g : Game) : Nat := g.bet.size

/-- Game::symbols accessor: the symbols on the reels. -/
def Game.symbols (g : Game) : List Symbol := g.stops

/-- Game::set_bet_size: delegates to Bet::set_size; a panic there
propagates. -/
def Game.set_bet_size (g : Game) (bet_size : Nat) : RustOutcome Game :=
  match g.bet.set_size bet_size with
  | .ok b => .ok { g with bet := b }
  | .panic m => .panic m

/-- Game::spin with the three random draws passed explicitly.  Mirrors the
source order: early LowBalance return, then stops are replaced, the bet is
deducted, the win is computed from payout and added back.  The products and
sums are u32 arithmetic, hence reduced modulo U32; the deduction cannot
underflow because of the guard. -/
def Game.spin (g : Game) (d1 d2 d3 : Symbol) :
    RustOutcome (Game × Except LowBalance Unit) :=
  if g.credits < g.bet_size then
    .ok (g, .error .mk)
  else
    let stops := [d1, d2, d3]
    let g1 : Game := { g with stops := stops, credits := g.credits - g.bet_size }
    match payout g1.stops with
    | .panic m => .panic m
    | .ok mult =>
        let win := mult * g1.bet_size % U32
        let g2 : Game := { g1 with win := win, credits := (g1.credits + win) % U32 }
        .ok (g2, .ok ())

/-- The symbol sub-range table exactly as the spec prints it: 0-72 Blank,
73-77 Cherry, 78-93 Bar, 94-106 DoubleBar, 107-117 TripleBar, 118-125
Seven, 126-127 Jackpot.  Spec-side definition, to be compared with
Symbol.from_number. -/
def specSymbolOf (n : Nat) : Symbol :=
  if n ≤ 72 then .Blank
  else if 73 ≤ n ∧ n ≤ 77 then .Cherry
  else if 78 ≤ n ∧ n ≤ 93 then .Bar
  else if 94 ≤ n ∧ n ≤ 106 then .DoubleBar
  else if 107 ≤ n ∧ n ≤ 117 then .TripleBar
  else if 118 ≤ n ∧ n ≤ 125 then .Seven
  else .Jackpot

/-- The Bar family of symbols, as the spec glossary defines it. -/
def barFamily : List Symbol := [.Bar, .DoubleBar, .TripleBar]

/-! Helper lemmas shared by the claim theorems. -/

theorem is_all_perm {l1 l2 : List Symbol} (hp : l1.Perm l2) (s : Symbol) :
    is_all l1 s = is_all l2 s := by
  unfold is_all
  apply Bool.eq_iff_iff.mpr
  simp only [List.all_eq_true]
  exact ⟨fun h x hx => h x (hp.mem_iff.mpr hx), fun h x hx => h x (hp.mem_iff.mp hx)⟩

theorem perm_filter_len {l1 l2 : List Symbol} (hp : l1.Perm l2) (p : Symbol → Bool) :
    (l1.filter p).length = (l2.filter p).length :=
  (List.Perm.filter p hp).length_eq

theorem perm_map_filter_len {l1 l2 : List Symbol} (hp : l1.Perm l2)
    (f : Symbol → String) (p : String → Bool) :
    ((l1.map f).filter p).length = ((l2.map f).filter p).length :=
  (List.Perm.filter p (hp.map f)).length_eq

/-! The claim theorems. -/

/-- C2: the payout function returns exactly the tabulated multipliers for the
ten probe combinations of the spec. -/
theorem payout_table_values :
    payout [.Jackpot, .Jackpot, .Jackpot] = .ok 1666
    ∧ payout [.Seven, .Seven, .Seven] = .ok 300
    ∧ payout [.TripleBar, .TripleBar, .TripleBar] = .ok 100
    ∧ payout [.DoubleBar, .DoubleBar, .DoubleBar] = .ok 50
    ∧ payout [.Bar, .Bar, .Bar] = .ok 25
    ∧ payout [.Cherry, .Cherry, .Cherry] = .ok 12
    ∧ payout [.Bar, .DoubleBar, .TripleBar] = .ok 12
    ∧ payout [.Cherry, .Cherry, .Blank] = .ok 6
    ∧ payout [.Bar, .Blank, .Cherry] = .ok 3
    ∧ payout [.Bar, .Blank, .Seven] = .ok 0 := by
  decide

/-- C1 (amended): when credits cover the bet and the exact result
credits - bet.size + payout(drawn) * bet.size fits in a u32, spin succeeds,
stores the three drawn symbols, and sets win = payout(drawn) * bet.size and
credits = credits - bet.size + win exactly as the claim states; without the
no-overflow hypothesis the stored values are only these quantities reduced
modulo 2^32. -/
theorem spin_success_formula (g : Game) (d1 d2 d3 : Symbol)
    (hbal : g.bet.size ≤ g.credits)
    (hov : g.credits - g.bet.size + payoutCore [d1, d2, d3] * g.bet.size < U32) :
    Game.spin g d1 d2 d3 =
      .ok ({ credits := g.credits - g.bet.size + payoutCore [d1, d2, d3] * g.bet.size,
             bet := g.bet,
             win := payoutCore [d1, d2, d3] * g.bet.size,
             stops := [d1, d2, d3] }, .ok ()) := by
  have hnl : ¬ g.credits < g.bet_size := by
    simp only [Game.bet_size]; omega
  have hwin : payoutCore [d1, d2, d3] * g.bet.size < U32 := by omega
  have hp : payout [d1, d2, d3] = .ok (payoutCore [d1, d2, d3]) := rfl
  simp only [Game.spin, if_neg hnl, hp, Game.bet_size]
  rw [Nat.mod_eq_of_lt hwin, Nat.mod_eq_of_lt hov]
  rw [if_neg (show ¬ g.credits < g.bet.size by omega)]

/-- Witness for C1 (amended): a concrete spin with 1000 credits, bet 10 and
draw Cherry Cherry Blank pays 6 * 10 = 60 and leaves 1050 credits. -/
theorem spin_success_formula_witness :
    Game.spin ⟨1000, ⟨10, 1, 100⟩, 0, [.Blank, .Blank, .Blank]⟩ .Cherry .Cherry .Blank
      = .ok (⟨1050, ⟨10, 1, 100⟩, 60, [.Cherry, .Cherry, .Blank]⟩, .ok ()) := by
  exact spin_success_formula ⟨1000, ⟨10, 1, 100⟩, 0, [.Blank, .Blank, .Blank]⟩
    .Cherry .Cherry .Blank (by decide) (by decide)

/-- Counterexample to C1 as stated: with credits = bet.size = 4294967295
(a valid bet) and a triple-Cherry draw, spin succeeds but the stored win is
4294967284 = (12 * 4294967295) mod 2^32, not payout(drawn) * bet.size =
51539607540, because the u32 multiplication wraps (in a debug build the same
spin aborts on overflow instead of succeeding). -/
theorem spin_overflow_counterexample :
    Game.spin ⟨4294967295, ⟨4294967295, 1, 4294967295⟩, 0, [.Blank, .Blank, .Blank]⟩
        .Cherry .Cherry .Cherry
      = .ok (⟨4294967284, ⟨4294967295, 1, 4294967295⟩, 4294967284,
             [.Cherry, .Cherry, .Cherry]⟩, .ok ())
    ∧ (4294967284 : Nat) ≠ payoutCore [.Cherry, .Cherry, .Cherry] * 4294967295 := by
  exact ⟨rfl, by decide⟩

/-- C3: a spin with credits strictly below the bet size returns the
LowBalance error and returns the game state entirely unchanged. -/
theorem spin_low_balance_frame (g : Game) (d1 d2 d3 : Symbol)
    (h : g.credits < g.bet.size) :
    Game.spin g d1 d2 d3 = .ok (g, .error .mk) := by
  have h' : g.credits < g.bet_size := h
  simp only [Game.spin, if_pos h']

/-- Witness for C3: 5 credits cannot cover a bet of 10; the spin reports
LowBalance and every field is untouched. -/
theorem spin_low_balance_frame_witness :
    Game.spin ⟨5, ⟨10, 1, 100⟩, 7, [.Seven, .Blank, .Cherry]⟩ .Bar .Bar .Bar
      = .ok (⟨5, ⟨10, 1, 100⟩, 7, [.Seven, .Blank, .Cherry]⟩, .error .mk) :=
  spin_low_balance_frame ⟨5, ⟨10, 1, 100⟩, 7, [.Seven, .Blank, .Cherry]⟩
    .Bar .Bar .Bar (by decide)

/-- C4 (amended): an invalid bet configuration in Bet::new, and an
out-of-bounds new size in Bet::set_size or Game::set_bet_size, cause an
assertion failure (a panic carrying the InvalidBet display message), not an
error value returned to the caller. -/
theorem invalid_bet_panics (s mn mx ns : Nat) (g : Game)
    (h1 : Bet.is_valid s mn mx = false)
    (h2 : Bet.is_valid ns g.bet.min g.bet.max = false) :
    Bet.new s mn mx = .panic invalidBetMsg
    ∧ Bet.set_size g.bet ns = .panic invalidBetMsg
    ∧ Game.set_bet_size g ns = .panic invalidBetMsg := by
  refine ⟨?_, ?_, ?_⟩
  · simp [Bet.new, h1]
  · simp [Bet.set_size, h2]
  · simp [Game.set_bet_size, Bet.set_size, h2]

/-- Witness for C4 (amended): bet size 11 with bounds [1, 10] makes both the
constructor and the two setters panic with the InvalidBet message. -/
theorem invalid_bet_panics_witness :
    Bet.new 11 1 10 = .panic invalidBetMsg
    ∧ Bet.set_size (⟨1, 1, 10⟩ : Bet) 11 = .panic invalidBetMsg
    ∧ Game.set_bet_size ⟨1000, ⟨1, 1, 10⟩, 0, [.Blank, .Blank, .Blank]⟩ 11
        = .panic invalidBetMsg :=
  invalid_bet_panics 11 1 10 11 ⟨1000, ⟨1, 1, 10⟩, 0, [.Blank, .Blank, .Blank]⟩
    (by decide) (by decide)

/-- Counterexample to C4 as stated: at the concrete invalid configuration
size 11, bounds [1, 10], Bet::new and Bet::set_size do not return an
InvalidBet error value to the caller; they panic (abort), as the isOk = false
conjunct records. -/
theorem invalid_bet_no_error_value :
    Bet.new 11 1 10 = .panic invalidBetMsg
    ∧ Bet.set_size (⟨1, 1, 10⟩ : Bet) 11 = .panic invalidBetMsg
    ∧ (Bet.new 11 1 10).isOk = false
    ∧ (Bet.set_size (⟨1, 1, 10⟩ : Bet) 11).isOk = false := by
  decide

/-- C5: for every number in [0, 127], from_number returns (without error)
exactly the symbol given by the contiguous sub-range table of the spec. -/
theorem from_number_partition (n : Nat) (h : n ≤ 127) :
    Symbol.from_number n = .ok (specSymbolOf n) := by
  have key : ∀ m, m < 128 → Symbol.from_number m = .ok (specSymbolOf m) := by decide
  exact key n (by omega)

/-- Witness for C5: the theorem applied at 100, which the table sends to
DoubleBar. -/
theorem from_number_partition_witness :
    Symbol.from_number 100 = .ok (specSymbolOf 100)
    ∧ specSymbolOf 100 = .DoubleBar :=
  ⟨from_number_partition 100 (by decide), by decide⟩

/-- C7: for every number strictly above 127, from_number returns the
OutOfRange error carrying that number, never a symbol. -/
theorem from_number_out_of_range (n : Nat) (h : 127 < n) :
    Symbol.from_number n = .error ⟨n⟩ := by
  unfold Symbol.from_number
  rw [if_neg (by omega), if_neg (by omega), if_neg (by omega), if_neg (by omega),
    if_neg (by omega), if_neg (by omega), if_neg (by omega)]

/-- Witness for C7: the theorem applied at 128, the first invalid number. -/
theorem from_number_out_of_range_witness :
    Symbol.from_number 128 = .error ⟨128⟩ :=
  from_number_out_of_range 128 (by decide)

/-- C6: any three symbols drawn from the Bar family (Bar, DoubleBar,
TripleBar) that are not all three equal pay multiplier 12, the same value as
three Cherries; the all-equal mixtures are excluded because an earlier rule
of the top-to-bottom cascade claims them first. -/
theorem mixed_bar_family_pays_12 (a b c : Symbol)
    (ha : a ∈ barFamily) (hb : b ∈ barFamily) (hc : c ∈ barFamily)
    (hne : ¬(a = b ∧ b = c)) :
    payout [a, b, c] = .ok 12 ∧ payout [.Cherry, .Cherry, .Cherry] = .ok 12 := by
  refine ⟨?_, by decide⟩
  revert hne hc hb ha
  revert a b c
  decide

/-- Witness for C6: the theorem applied to the mixture Bar, DoubleBar,
TripleBar. -/
theorem mixed_bar_family_pays_12_witness :
    payout [.Bar, .DoubleBar, .TripleBar] = .ok 12
    ∧ payout [.Cherry, .Cherry, .Cherry] = .ok 12 :=
  mixed_bar_family_pays_12 .Bar .DoubleBar .TripleBar
    (by decide) (by decide) (by decide) (by decide)

/-- C8: setting the bet size to a value within [min, max] succeeds and
changes bet.size only: credits, win, the stops, and the bet bounds are
returned unchanged, and the resulting bet size is the new value. -/
theorem set_bet_size_frame (g : Game) (ns : Nat)
    (hmin : g.bet.min ≤ ns) (hmax : ns ≤ g.bet.max) :
    Game.set_bet_size g ns
      = .ok { credits := g.credits, bet := ⟨ns, g.bet.min, g.bet.max⟩,
              win := g.win, stops := g.stops } := by
  have hv : Bet.is_valid ns g.bet.min g.bet.max = true := by
    simp [Bet.is_valid]; omega
  simp [Game.set_bet_size, Bet.set_size, hv]

/-- Witness for C8: raising the bet from 10 to 15 inside bounds [1, 100]
keeps every other field. -/
theorem set_bet_size_frame_witness :
    Game.set_bet_size ⟨1000, ⟨10, 1, 100⟩, 25, [.Seven, .Blank, .Cherry]⟩ 15
      = .ok ⟨1000, ⟨15, 1, 100⟩, 25, [.Seven, .Blank, .Cherry]⟩ :=
  set_bet_size_frame ⟨1000, ⟨10, 1, 100⟩, 25, [.Seven, .Blank, .Cherry]⟩ 15
    (by decide) (by decide)

/-- C9: payout is permutation-invariant on three-symbol draws: every rule of
the cascade depends only on which symbols occur and how often, never on
their order. -/
theorem payout_perm_invariant (l1 l2 : List Symbol) (hp : l1.Perm l2)
    (_hl : l1.length = 3) :
    payout l1 = payout l2 := by
  have hcore : payoutCore l1 = payoutCore l2 := by
    unfold payoutCore
    rw [is_all_perm hp .Jackpot, is_all_perm hp .Seven, is_all_perm hp .TripleBar,
      is_all_perm hp .DoubleBar, is_all_perm hp .Bar, is_all_perm hp .Cherry,
      perm_map_filter_len hp (fun x => x.to_string) (fun x => strContains x "Bar"),
      perm_filter_len hp (fun x => x == Symbol.Cherry)]
  unfold payout
  rw [hp.length_eq, hcore]

/-- Witness for C9: a cyclic reordering of the single-Cherry draw Bar,
Blank, Cherry keeps the payout. -/
theorem payout_perm_invariant_witness :
    payout [.Bar, .Blank, .Cherry] = payout [.Cherry, .Bar, .Blank] :=
  payout_perm_invariant [.Bar, .Blank, .Cherry] [.Cherry, .Bar, .Blank]
    (by decide) (by decide)

/-- C10: every Game operation keeps the stored reel sequence at exactly
NUM_REELS = 3 symbols: new builds three stops, set_bet and set_bet_size do
not touch them, and spin either leaves them alone (LowBalance) or replaces
them with exactly three draws; consequently spin never trips the length
assertion of payout (its outcome is always ok, never a panic). -/
theorem reel_count_invariant (c n : Nat) (bt b : Bet)
    (r1 r2 r3 d1 d2 d3 : Symbol) (g g2 g3 : Game) (e : Except LowBalance Unit)
    (hinv : g.stops.length = NUM_REELS) :
    (Game.new c bt r1 r2 r3).stops.length = NUM_REELS
    ∧ (Game.set_bet g b).stops.length = NUM_REELS
    ∧ (Game.set_bet_size g n = .ok g2 → g2.stops.length = NUM_REELS)
    ∧ (Game.spin g d1 d2 d3).isOk = true
    ∧ (Game.spin g d1 d2 d3 = .ok (g3, e) → g3.stops.length = NUM_REELS) := by
  have hpay : payout [d1, d2, d3] = .ok (payoutCore [d1, d2, d3]) := rfl
  refine ⟨rfl, hinv, ?_, ?_, ?_⟩
  · intro h
    unfold Game.set_bet_size at h
    cases hm : Bet.set_size g.bet n with
    | ok bb => rw [hm] at h; injection h with h'; rw [← h']; exact hinv
    | panic m => rw [hm] at h; exact absurd h (by simp)
  · by_cases hlt : g.credits < g.bet_size
    · simp [Game.spin, hlt, RustOutcome.isOk]
    · simp [Game.spin, hlt, hpay, RustOutcome.isOk]
  · intro h
    by_cases hlt : g.credits < g.bet_size
    · simp [Game.spin, hlt] at h
      rw [← h.1]; exact hinv
    · simp [Game.spin, hlt, hpay] at h
      rw [← h.1]
      rfl

/-- Witness for C10: the invariant applied to a concrete 1000-credit game,
a bet change to 15, and a triple-Bar spin paying 25 * 10 = 250. -/
theorem reel_count_invariant_witness :
    (Game.new 1000 ⟨10, 1, 100⟩ .Blank .Cherry .Seven).stops.length = NUM_REELS
    ∧ (Game.set_bet ⟨1000, ⟨10, 1, 100⟩, 0, [.Blank, .Blank, .Blank]⟩
        ⟨5, 1, 100⟩).stops.length = NUM_REELS
    ∧ (Game.set_bet_size ⟨1000, ⟨10, 1, 100⟩, 0, [.Blank, .Blank, .Blank]⟩ 15
          = .ok ⟨1000, ⟨15, 1, 100⟩, 0, [.Blank, .Blank, .Blank]⟩ →
        (⟨1000, ⟨15, 1, 100⟩, 0, [.Blank, .Blank, .Blank]⟩ : Game).stops.length = NUM_REELS)
    ∧ (Game.spin ⟨1000, ⟨10, 1, 100⟩, 0, [.Blank, .Blank, .Blank]⟩ .Bar .Bar .Bar).isOk = true
    ∧ (Game.spin ⟨1000, ⟨10, 1, 100⟩, 0, [.Blank, .Blank, .Blank]⟩ .Bar .Bar .Bar
          = .ok (⟨1240, ⟨10, 1, 100⟩, 250, [.Bar, .Bar, .Bar]⟩, .ok ()) →
        (⟨1240, ⟨10, 1, 100⟩, 250, [.Bar, .Bar, .Bar]⟩ : Game).stops.length = NUM_REELS) :=
  reel_count_invariant 1000 15 ⟨10, 1, 100⟩ ⟨5, 1, 100⟩ .Blank .Cherry .Seven
    .Bar .Bar .Bar ⟨1000, ⟨10, 1, 100⟩, 0, [.Blank, .Blank, .Blank]⟩
    ⟨1000, ⟨15, 1, 100⟩, 0, [.Blank, .Blank, .Blank]⟩
    ⟨1240, ⟨10, 1, 100⟩, 250, [.Bar, .Bar, .Bar]⟩ (.ok ()) (by decide)

end SlotMachine
